import Mathlib

/-!
# AGN GPIO key driver (`agn_gpio_key.c`)

A shallow embedding of the interrupt handler `agn_key_interrupt` and of the
attach routine `agn_key_probe`, together with the properties of the driver
that are checked against it.

Pointers are modelled by their integer value: `0` is `NULL`, the values
`-4095 .. -1` are the encoded error pointers of the kernel.  The kernel services the
driver calls are not part of the driver; what they return is supplied by an
environment record, and what they do to the device is recorded in an explicit
kernel state.
-/

namespace AgnGpioKey

/-! ## Constants taken from the kernel headers -/

/-- Number of buttons, `#define KEY_NUM 2`. -/
def KEY_NUM : Nat := 2

/-- Key code `KEY_1` of `input-event-codes.h`. -/
def KEY_1 : Nat := 2

/-- Key code `KEY_2` of `input-event-codes.h`. -/
def KEY_2 : Nat := 3

/-- Event type `EV_KEY` of `input-event-codes.h`. -/
def EV_KEY : Nat := 1

/-- Bus type `BUS_HOST` of `input.h`. -/
def BUS_HOST : Nat := 25

/-- Errno `ENOMEM`. -/
def ENOMEM : Int := 12

/-- Errno `EBUSY`. -/
def EBUSY : Int := 16

/-- Errno `EINVAL`. -/
def EINVAL : Int := 22

/-- Errno `ENOTCONN`. -/
def ENOTCONN : Int := 107

/-- The interrupt number `IRQ_NOTCONNECTED`, `1U << 31`. -/
def IRQ_NOTCONNECTED : Int := 2147483648

/-- Conversion of an `int` to `unsigned int`, as at a call whose parameter
is unsigned. -/
def to_uint (x : Int) : Int := x % 4294967296

/-- Largest errno that an error pointer can encode, `MAX_ERRNO`. -/
def MAX_ERRNO : Int := 4095

/-- Flag `IRQF_TRIGGER_RISING` of `interrupt.h`. -/
def IRQF_TRIGGER_RISING : Nat := 1

/-- Flag `IRQF_TRIGGER_FALLING` of `interrupt.h`. -/
def IRQF_TRIGGER_FALLING : Nat := 2

/-- Flag `IRQF_SHARED` of `interrupt.h`. -/
def IRQF_SHARED : Nat := 128

/-- Line request flag `GPIOD_IN` (claim the line as an input). -/
def GPIOD_IN : Nat := 1

/-- Return values of an interrupt handler, `enum irqreturn`. -/
inductive irqreturn_t where
  | IRQ_NONE
  | IRQ_HANDLED
  | IRQ_WAKE_THREAD
  deriving DecidableEq, Repr

/-- A handler function pointer: `NULL`, or the address of the handler of this
driver.  What the address designates is `irq_handler_t.fn`. -/
inductive irq_handler_t where
  | null
  | agn_key_interrupt
  deriving DecidableEq, Repr

/-! ## Data model -/

/-- One button, `struct agn_key`.  `gpiod` and `input` are pointers. -/
structure agn_key where
  gpiod : Int
  irq : Int
  keycode : Int
  input : Int
  deriving DecidableEq, Repr

/-- The registry, `struct agn_key_drvdata`: the array `keys[KEY_NUM]`. -/
structure agn_key_drvdata where
  keys : List agn_key
  deriving DecidableEq, Repr

/-- A record as `devm_kzalloc` hands it out: every field zero. -/
def agn_key.zero : agn_key := ⟨0, 0, 0, 0⟩

/-- Read of `ddata->keys[i]`. -/
def agn_key_drvdata.key (d : agn_key_drvdata) (i : Nat) : agn_key :=
  d.keys.getD i agn_key.zero

/-- Calls made on an input device by the handler, in program order. -/
inductive input_call where
  | input_report_key (dev : Int) (code : Int) (value : Int)
  | input_sync (dev : Int)
  deriving DecidableEq, Repr

/-! ## The interrupt handler -/

/-- The C operator `!` on an `int`. -/
def lnot (x : Int) : Int := if x = 0 then 1 else 0

/-- What the handler can touch: the record `dev_id` points to and the stream
of calls it has made on input devices. -/
structure handler_state where
  key : agn_key
  events : List input_call
  deriving DecidableEq, Repr

/-- The handler `agn_key_interrupt(irq, dev_id)`.  `gpiod_get_value` is the
hardware read at the time of the invocation.  The record is only read. -/
def agn_key_interrupt (gpiod_get_value : Int → Int) (_irq : Int)
    (s : handler_state) : irqreturn_t × handler_state :=
  let key := s.key
  let state := gpiod_get_value key.gpiod
  let ev1 := input_call.input_report_key key.input key.keycode (lnot state)
  let ev2 := input_call.input_sync key.input
  (irqreturn_t.IRQ_HANDLED, { s with events := s.events ++ [ev1, ev2] })

/-- The function a handler pointer designates. -/
def irq_handler_t.fn :
    irq_handler_t → Option ((Int → Int) → Int → handler_state → irqreturn_t × handler_state)
  | irq_handler_t.null => none
  | irq_handler_t.agn_key_interrupt => some AgnGpioKey.agn_key_interrupt

/-- One firing of the interrupt of a record while its line reads `level`. -/
def fire (irq : Int) (level : Int) (s : handler_state) : handler_state :=
  (agn_key_interrupt (fun _ => level) irq s).2

/-- The handler invoked once per sampled level, in sampling order. -/
def fire_all (irq : Int) : List Int → handler_state → handler_state
  | [], s => s
  | level :: rest, s => fire_all irq rest (fire irq level s)

/-- The two calls one firing is expected to make for a sampled level. -/
def reported (key : agn_key) (level : Int) : List input_call :=
  [input_call.input_report_key key.input key.keycode (1 - level),
   input_call.input_sync key.input]

/-! ## The kernel services the driver uses

Each service is a function on an explicit kernel state.  Its return value comes
from the environment record; on success it records the resource it created and,
for the device-managed (`devm_`) services, the entry it adds to the managed
resource list of the device. -/

/-- The context pointer given to `devm_request_irq`: the address of one record
of the registry, `&ddata->keys[i]`, or the address of the registry itself. -/
inductive dev_id_t where
  | key (i : Nat)
  | drvdata
  deriving DecidableEq, Repr

/-- A live interrupt registration (`struct irqaction`). -/
structure irq_action where
  irq : Int
  handler : irq_handler_t
  flags : Nat
  name : String
  dev_id : dev_id_t
  deriving DecidableEq, Repr

/-- The fields of `struct input_dev` the driver touches.  `ptr` is the address
of the structure; the bitmaps are the lists of the bits that are set. -/
structure input_dev where
  ptr : Int
  name : String
  bustype : Nat
  parent : Int
  evbit : List Nat
  keybit : List Nat
  devres_managed : Bool
  deriving DecidableEq, Repr

/-- An entry of the managed resource list of the device. -/
inductive devres where
  | kmalloc (p : Int)
  | gpiod (desc : Int)
  | irq (irq : Int) (dev_id : dev_id_t)
  | input_device (p : Int)
  | input_unregister (p : Int)
  deriving DecidableEq, Repr

/-- The calls the driver makes during attach, with the value each returned. -/
inductive kcall where
  | devm_kzalloc (ret : Int)
  | devm_gpiod_get_index (con_id : String) (idx : Nat) (flags : Nat) (ret : Int)
  | gpiod_to_irq (desc : Int) (ret : Int)
  | devm_request_irq (irq : Int) (handler : irq_handler_t) (flags : Nat)
      (name : String) (dev_id : dev_id_t) (ret : Int)
  | devm_input_allocate_device (ret : Int)
  | input_register_device (dev : input_dev) (ret : Int)
  | platform_set_drvdata (data : Int)
  | dev_err (fmt : String) (arg : Option Nat)
  deriving DecidableEq, Repr

/-- What the kernel holds for the device: claimed GPIO lines, live interrupt
registrations, allocated and registered input devices, managed memory, the
managed resource list (newest entry first), the published driver data and the
calls made so far (oldest first). -/
structure kernel_state where
  lines : List Int
  irqs : List irq_action
  inputs_allocated : List Int
  inputs_registered : List input_dev
  kmem : List Int
  devres : List devres
  drvdata : Int
  calls : List kcall
  deriving DecidableEq, Repr

/-- A device to which nothing is attached yet; `d0` is its driver data. -/
def kernel_state.fresh (d0 : Int) : kernel_state :=
  ⟨[], [], [], [], [], [], d0, []⟩

/-- The answers of the kernel and of the hardware description: the device and
its name, the pointer `devm_kzalloc` returns, the pointer
`devm_gpiod_get_index` returns for a role, index and flags, the `int`
`gpiod_to_irq` returns for a line (an interrupt number or a negative errno),
the code the interrupt core returns for a request on a number that can be an
interrupt, with a handler, and that is free, the pointer the n-th
`devm_input_allocate_device` returns and the code `input_register_device`
returns for a device. -/
structure kernel_env where
  dev : Int
  dev_name : String
  kzalloc : Int
  gpiod_get_index : String → Nat → Nat → Int
  gpiod_to_irq : Int → Int
  gpiod_to_irq_int : ∀ desc, -2147483648 ≤ gpiod_to_irq desc ∧ gpiod_to_irq desc < 2147483648
  request_irq : Int → dev_id_t → Int
  input_allocate_device : Nat → Int
  input_register_device : input_dev → Int

/-- The macro `IS_ERR`: the pointer lies in the last `MAX_ERRNO` addresses. -/
def IS_ERR (p : Int) : Bool := decide (-MAX_ERRNO ≤ p) && decide (p < 0)

/-- The macro `PTR_ERR`: the pointer read as a number.  An error pointer is in
`-4095 .. -1`, so the conversion to `int` keeps the value. -/
def PTR_ERR (p : Int) : Int := p

/-- Append a call to the record of calls. -/
def kernel_state.call (k : kernel_state) (c : kcall) : kernel_state :=
  { k with calls := k.calls ++ [c] }

/-- The service `devm_kzalloc(dev, size, GFP_KERNEL)`: zeroed managed memory,
or `NULL`. -/
def devm_kzalloc (env : kernel_env) (k : kernel_state) : Int × kernel_state :=
  let p := env.kzalloc
  let k1 := k.call (kcall.devm_kzalloc p)
  if p = 0 then (p, k1)
  else (p, { k1 with kmem := p :: k1.kmem, devres := devres.kmalloc p :: k1.devres })

/-- The service `devm_gpiod_get_index(dev, con_id, idx, flags)`: the claimed
line, or an error pointer. -/
def devm_gpiod_get_index (env : kernel_env) (k : kernel_state)
    (con_id : String) (idx : Nat) (flags : Nat) : Int × kernel_state :=
  let p := env.gpiod_get_index con_id idx flags
  let k1 := k.call (kcall.devm_gpiod_get_index con_id idx flags p)
  if IS_ERR p then (p, k1)
  else (p, { k1 with lines := p :: k1.lines, devres := devres.gpiod p :: k1.devres })

/-- The lookup `gpiod_to_irq(desc)`: an interrupt number, or a negative
errno.  It changes nothing. -/
def gpiod_to_irq (env : kernel_env) (k : kernel_state) (desc : Int) :
    Int × kernel_state :=
  let n := env.gpiod_to_irq desc
  (n, k.call (kcall.gpiod_to_irq desc n))

/-- The code `request_threaded_irq` returns for the unsigned number `irq`,
given the registrations that are live.  `IRQ_NOTCONNECTED` is refused with
`-ENOTCONN`; a number above `INT_MAX` has no interrupt descriptor and is
refused with `-EINVAL`, and so is a `NULL` handler; a request without
`IRQF_SHARED` (this driver never sets it) for an interrupt that already has a
registration is refused with `-EBUSY`; otherwise the environment answers. -/
def request_threaded_irq (env : kernel_env) (irqs : List irq_action) (irq : Int)
    (handler : irq_handler_t) (flags : Nat) (dev_id : dev_id_t) : Int :=
  if irq = IRQ_NOTCONNECTED then -ENOTCONN
  else if IRQ_NOTCONNECTED < irq then -EINVAL
  else if handler = irq_handler_t.null then -EINVAL
  else if irqs.any (fun a => decide (irq = a.irq)) && decide (flags &&& IRQF_SHARED = 0)
  then -EBUSY
  else env.request_irq irq dev_id

/-- The service `devm_request_irq(dev, irq, handler, flags, name, dev_id)`,
whose parameter `irq` is an `unsigned int`. -/
def devm_request_irq (env : kernel_env) (k : kernel_state) (irq : Int)
    (handler : irq_handler_t) (flags : Nat) (name : String) (dev_id : dev_id_t) :
    Int × kernel_state :=
  let ret := request_threaded_irq env k.irqs irq handler flags dev_id
  let k1 := k.call (kcall.devm_request_irq irq handler flags name dev_id ret)
  if ret = 0 then
    (ret, { k1 with irqs := ⟨irq, handler, flags, name, dev_id⟩ :: k1.irqs,
                    devres := devres.irq irq dev_id :: k1.devres })
  else (ret, k1)

/-- The service `devm_input_allocate_device(dev)`: a zeroed managed input
device, or `NULL` (the structure at address 0). -/
def devm_input_allocate_device (env : kernel_env) (k : kernel_state) :
    input_dev × kernel_state :=
  let p := env.input_allocate_device k.inputs_allocated.length
  let k1 := k.call (kcall.devm_input_allocate_device p)
  if p = 0 then (⟨0, "", 0, 0, [], [], false⟩, k1)
  else (⟨p, "", 0, env.dev, [], [], true⟩,
        { k1 with inputs_allocated := p :: k1.inputs_allocated,
                  devres := devres.input_device p :: k1.devres })

/-- The service `input_register_device(dev)`.  A managed device gets an entry
that unregisters it. -/
def input_register_device (env : kernel_env) (k : kernel_state) (input : input_dev) :
    Int × kernel_state :=
  let ret := env.input_register_device input
  let k1 := k.call (kcall.input_register_device input ret)
  if ret = 0 then
    (ret, { k1 with inputs_registered := input :: k1.inputs_registered,
                    devres := if input.devres_managed
                              then devres.input_unregister input.ptr :: k1.devres
                              else k1.devres })
  else (ret, k1)

/-- The helper `platform_set_drvdata(pdev, data)`. -/
def platform_set_drvdata (k : kernel_state) (data : Int) : kernel_state :=
  { (k.call (kcall.platform_set_drvdata data)) with drvdata := data }

/-- The logging call `dev_err(dev, fmt, arg)`. -/
def dev_err (k : kernel_state) (fmt : String) (arg : Option Nat) : kernel_state :=
  k.call (kcall.dev_err fmt arg)

/-- The helper `__set_bit(nr, bitmap)`. -/
def set_bit (nr : Nat) (bitmap : List Nat) : List Nat :=
  if nr ∈ bitmap then bitmap else nr :: bitmap

/-! ## The attach routine -/

/-- The table `u32 keycodes[KEY_NUM] = {KEY_1, KEY_2}`. -/
def keycodes : List Nat := [KEY_1, KEY_2]

/-- The locals of `agn_key_probe` together with the kernel state: `ddata` is
the pointer `devm_kzalloc` returned, `mem` the registry it points to. -/
structure probe_state where
  k : kernel_state
  ddata : Int
  mem : agn_key_drvdata
  deriving DecidableEq, Repr

/-- Write to `ddata->keys[i]`. -/
def probe_state.set_key (s : probe_state) (i : Nat) (f : agn_key → agn_key) :
    probe_state :=
  { s with mem := ⟨s.mem.keys.set i (f (s.mem.key i))⟩ }

/-- A statement either falls through with a new state or returns from
`agn_key_probe` with a code. -/
abbrev probe_step := Except (Int × probe_state) probe_state

/-- Lines 58-62: acquire the line of button `i`. -/
def probe_line (env : kernel_env) (i : Nat) (s : probe_state) : probe_step :=
  let r := devm_gpiod_get_index env s.k "key" i GPIOD_IN
  let s1 := ({ s with k := r.2 }).set_key i (fun key => { key with gpiod := r.1 })
  if IS_ERR (s1.mem.key i).gpiod then
    let s2 := { s1 with k := dev_err s1.k "Failed to get gpio %d\n" (some i) }
    Except.error (PTR_ERR (s2.mem.key i).gpiod, s2)
  else Except.ok s1

/-- Lines 65-74: derive the interrupt number and register the handler.  The
`int` field `irq` is converted to the `unsigned int` parameter at the call. -/
def probe_irq (env : kernel_env) (i : Nat) (s : probe_state) : probe_step :=
  let r := gpiod_to_irq env s.k (s.mem.key i).gpiod
  let s1 := ({ s with k := r.2 }).set_key i (fun key => { key with irq := r.1 })
  let q := devm_request_irq env s1.k (to_uint (s1.mem.key i).irq)
    irq_handler_t.agn_key_interrupt
    (IRQF_TRIGGER_FALLING ||| IRQF_TRIGGER_RISING) env.dev_name (dev_id_t.key i)
  let ret := q.1
  let s2 := { s1 with k := q.2 }
  if ret ≠ 0 then
    let s3 := { s2 with k := dev_err s2.k "Failed to request IRQ %d\n" (some i) }
    Except.error (ret, s3)
  else Except.ok s2

/-- Lines 77-99: allocate, fill in, store and register the input device. -/
def probe_input (env : kernel_env) (i : Nat) (s : probe_state) : probe_step :=
  let a := devm_input_allocate_device env s.k
  let input := a.1
  let s1 := { s with k := a.2 }
  if input.ptr = 0 then Except.error (-ENOMEM, s1)
  else
    let input := { input with name := "AGN GPIO Keys" }
    let input := { input with bustype := BUS_HOST }
    let input := { input with parent := env.dev }
    let input := { input with evbit := set_bit EV_KEY input.evbit }
    let input := { input with keybit := set_bit (keycodes.getD i 0) input.keybit }
    let s2 := s1.set_key i (fun key => { key with input := input.ptr })
    let s3 := s2.set_key i (fun key => { key with keycode := (keycodes.getD i 0 : Nat) })
    let q := input_register_device env s3.k input
    let ret := q.1
    let s4 := { s3 with k := q.2 }
    if ret ≠ 0 then
      let s5 := { s4 with k := dev_err s4.k "Failed to register input device\n" none }
      Except.error (ret, s5)
    else Except.ok s4

/-- The body of the loop, lines 57-99. -/
def probe_body (env : kernel_env) (i : Nat) (s : probe_state) : probe_step :=
  match probe_line env i s with
  | Except.error r => Except.error r
  | Except.ok s1 =>
    match probe_irq env i s1 with
    | Except.error r => Except.error r
    | Except.ok s2 => probe_input env i s2

/-- The loop `for (i = 0; i < KEY_NUM; i++)`, with `n` iterations left
(called with `n = KEY_NUM - i`). -/
def probe_loop (env : kernel_env) : Nat → Nat → probe_state → probe_step
  | 0, _, s => Except.ok s
  | n + 1, i, s =>
    match probe_body env i s with
    | Except.error r => Except.error r
    | Except.ok s1 => probe_loop env n (i + 1) s1

/-- Lines 50-53: allocate the zeroed registry. -/
def probe_alloc (env : kernel_env) (k0 : kernel_state) : probe_step :=
  let r := devm_kzalloc env k0
  let ddata := r.1
  if ddata = 0 then Except.error (-ENOMEM, ⟨r.2, ddata, ⟨[]⟩⟩)
  else Except.ok ⟨r.2, ddata, ⟨List.replicate KEY_NUM agn_key.zero⟩⟩

/-- The attach routine `agn_key_probe(pdev)`, run on kernel state `k0`; the
result is the returned code and the state it leaves. -/
def agn_key_probe (env : kernel_env) (k0 : kernel_state) : Int × probe_state :=
  match probe_alloc env k0 with
  | Except.error e => e
  | Except.ok s =>
    match probe_loop env (KEY_NUM - 0) 0 s with
    | Except.error e => e
    | Except.ok s1 => (0, { s1 with k := platform_set_drvdata s1.k s1.ddata })

/-! ## Release of managed resources -/

/-- Release of one managed resource. -/
def devres_release (k : kernel_state) : devres → kernel_state
  | devres.kmalloc p => { k with kmem := k.kmem.erase p }
  | devres.gpiod p => { k with lines := k.lines.erase p }
  | devres.irq irq dev_id =>
    { k with irqs := k.irqs.filter (fun a => !(decide (a.irq = irq) && decide (a.dev_id = dev_id))) }
  | devres.input_device p => { k with inputs_allocated := k.inputs_allocated.erase p }
  | devres.input_unregister p =>
    { k with inputs_registered := k.inputs_registered.filter (fun d => !decide (d.ptr = p)) }

/-- Release of every managed resource of the device, newest first. -/
def devres_release_all (k : kernel_state) : kernel_state :=
  { (k.devres.foldl devres_release k) with devres := [] }

/-- Modelled from the spec: the attach call of the host framework, which the
driver does not contain.  It runs the attach routine and, when that reports a
failure, tears down what was acquired through the scoped-resource mechanism. -/
def platform_attach (env : kernel_env) (k0 : kernel_state) : Int × kernel_state :=
  let r := agn_key_probe env k0
  if r.1 = 0 then (r.1, r.2.k) else (r.1, devres_release_all r.2.k)

/-! ## Sample environments -/

/-- A board with both lines declared and every service succeeding: lines at
`100` and `101`, interrupts `40` and `41`, input devices at `200` and `201`. -/
def env_ok : kernel_env where
  dev := 1
  dev_name := "keys"
  kzalloc := 50
  gpiod_get_index := fun _ idx _ => 100 + idx
  gpiod_to_irq := fun desc => if desc = 100 then 40 else 41
  gpiod_to_irq_int := fun desc => by by_cases h : desc = 100 <;> simp [h]
  request_irq := fun _ _ => 0
  input_allocate_device := fun n => 200 + n
  input_register_device := fun _ => 0

/-- The board of `env_ok` with only one line declared: the lookup of the
second line fails with `-ENOENT`. -/
def env_one_line : kernel_env :=
  { env_ok with gpiod_get_index := fun _ idx _ => if idx = 0 then 100 else -2 }

/-- The board of `env_ok` whose lines cannot raise interrupts: `gpiod_to_irq`
fails with `-ENXIO`. -/
def env_no_irq : kernel_env :=
  { env_ok with
    gpiod_to_irq := fun _ => -6
    gpiod_to_irq_int := fun _ => by simp }

/-- The board of `env_ok` on which only the second line cannot raise
interrupts. -/
def env_no_second_irq : kernel_env :=
  { env_ok with
    gpiod_to_irq := fun desc => if desc = 100 then 40 else -6
    gpiod_to_irq_int := fun desc => by by_cases h : desc = 100 <;> simp [h] }

/-- The board of `env_ok` on which the interrupt of the second line is held by
another device: the request for interrupt `41` is answered `-EBUSY`. -/
def env_irq_taken : kernel_env :=
  { env_ok with request_irq := fun irq _ => if irq = 41 then -16 else 0 }

/-- The board of `env_ok` on which the second input device cannot be
allocated. -/
def env_no_memory : kernel_env :=
  { env_ok with input_allocate_device := fun n => if n = 0 then 200 else 0 }

/-- The board of `env_ok` on which the input core rejects the second input
device with `-EEXIST`. -/
def env_rejected : kernel_env :=
  { env_ok with input_register_device := fun d => if d.ptr = 201 then -17 else 0 }

/-- The board of `env_ok` without memory for the registry. -/
def env_no_registry : kernel_env :=
  { env_ok with kzalloc := 0 }

/-! ## Vocabulary of the properties -/

/-- The line the environment hands out for button `i`. -/
def env_line (env : kernel_env) (i : Nat) : Int :=
  env.gpiod_get_index "key" i GPIOD_IN

/-- The `int` the environment derives from the line of button `i`: its
interrupt number, or a negative errno. -/
def env_irq (env : kernel_env) (i : Nat) : Int :=
  env.gpiod_to_irq (env_line env i)

/-- The unsigned number `devm_request_irq` receives for button `i`. -/
def env_uirq (env : kernel_env) (i : Nat) : Int :=
  to_uint (env_irq env i)

/-- The registration of button `i` once it is live. -/
def env_action (env : kernel_env) (i : Nat) : irq_action :=
  ⟨env_uirq env i, irq_handler_t.agn_key_interrupt,
    IRQF_TRIGGER_FALLING ||| IRQF_TRIGGER_RISING, env.dev_name, dev_id_t.key i⟩

/-- The registrations of the buttons before `i`, newest first. -/
def regs_before (env : kernel_env) (i : Nat) : List irq_action :=
  ((List.range i).map (env_action env)).reverse

/-- The code the interrupt registration of button `i` gets when the buttons
before it are registered. -/
def request_answer (env : kernel_env) (i : Nat) : Int :=
  request_threaded_irq env (regs_before env i) (env_uirq env i)
    irq_handler_t.agn_key_interrupt (IRQF_TRIGGER_FALLING ||| IRQF_TRIGGER_RISING)
    (dev_id_t.key i)

/-- The input device of button `i` at the time the driver registers it. -/
def env_input (env : kernel_env) (i : Nat) : input_dev :=
  ⟨env.input_allocate_device i, "AGN GPIO Keys", BUS_HOST, env.dev, [EV_KEY],
    [keycodes.getD i 0], true⟩

/-- Every step for button `i` succeeds: the line is acquired, its interrupt
lookup does not fail, the registration is accepted, the input device is
allocated and its registration is accepted. -/
def button_ok (env : kernel_env) (i : Nat) : Bool :=
  !IS_ERR (env_line env i) && decide (0 ≤ env_irq env i) &&
    decide (request_answer env i = 0) && !decide (env.input_allocate_device i = 0) &&
    decide (env.input_register_device (env_input env i) = 0)

/-- The loop reaches iteration `i`: the registry was allocated and every step
for the buttons before `i` succeeded. -/
def started (env : kernel_env) (i : Nat) : Prop :=
  env.kzalloc ≠ 0 ∧ ∀ j, j < i → button_ok env j = true

/-- The allocation call of an attach. -/
def c_kzalloc (env : kernel_env) : kcall := kcall.devm_kzalloc env.kzalloc

/-- The line acquisition call for button `i`. -/
def c_line (env : kernel_env) (i : Nat) : kcall :=
  kcall.devm_gpiod_get_index "key" i GPIOD_IN (env_line env i)

/-- The interrupt lookup call for button `i`. -/
def c_to_irq (env : kernel_env) (i : Nat) : kcall :=
  kcall.gpiod_to_irq (env_line env i) (env_irq env i)

/-- The interrupt registration call for button `i`, returning `ret`. -/
def c_request (env : kernel_env) (i : Nat) (ret : Int) : kcall :=
  kcall.devm_request_irq (env_uirq env i) irq_handler_t.agn_key_interrupt
    (IRQF_TRIGGER_FALLING ||| IRQF_TRIGGER_RISING) env.dev_name (dev_id_t.key i) ret

/-- The input device allocation call for button `i`. -/
def c_alloc (env : kernel_env) (i : Nat) : kcall :=
  kcall.devm_input_allocate_device (env.input_allocate_device i)

/-- The input device registration call for button `i`. -/
def c_register (env : kernel_env) (i : Nat) : kcall :=
  kcall.input_register_device (env_input env i) (env.input_register_device (env_input env i))

/-- The five calls of a loop iteration that runs to its end. -/
def button_calls (env : kernel_env) (i : Nat) : List kcall :=
  [c_line env i, c_to_irq env i, c_request env i 0, c_alloc env i, c_register env i]

/-- The calls that are steps of the attach: the registry allocation and, for
each button, line acquisition, interrupt lookup, interrupt registration, input
device allocation and input device registration. -/
def is_step : kcall → Bool
  | kcall.devm_kzalloc _ => true
  | kcall.devm_gpiod_get_index _ _ _ _ => true
  | kcall.gpiod_to_irq _ _ => true
  | kcall.devm_request_irq _ _ _ _ _ _ => true
  | kcall.devm_input_allocate_device _ => true
  | kcall.input_register_device _ _ => true
  | _ => false

/-- The steps of a record of calls, in order. -/
def steps (calls : List kcall) : List kcall := calls.filter is_step

/-- The error kinds of the specification. -/
inductive error_kind where
  | ResourceUnavailable
  | AllocationFailure
  | RegistrationFailure
  deriving DecidableEq, Repr

/-- Modelled from the spec: the error taxonomy, which the driver does not
contain (it only passes errno values on).  A line that cannot be resolved, an
interrupt identifier that cannot be derived and an interrupt that cannot be
claimed are `ResourceUnavailable`; an object that cannot be allocated is
`AllocationFailure`; a rejected input device is `RegistrationFailure`. -/
def step_kind : kcall → Option error_kind
  | kcall.devm_kzalloc _ => some error_kind.AllocationFailure
  | kcall.devm_gpiod_get_index _ _ _ _ => some error_kind.ResourceUnavailable
  | kcall.gpiod_to_irq _ _ => some error_kind.ResourceUnavailable
  | kcall.devm_request_irq _ _ _ _ _ _ => some error_kind.ResourceUnavailable
  | kcall.devm_input_allocate_device _ => some error_kind.AllocationFailure
  | kcall.input_register_device _ _ => some error_kind.RegistrationFailure
  | _ => none

/-- The kind of the failure an attach reports: the kind of the last step it
made, the one whose code it returns. -/
def failure_kind (calls : List kcall) : Option error_kind :=
  (steps calls).getLast?.bind step_kind

/-- The arguments of an interrupt registration call: interrupt number,
handler, trigger flags, name and context pointer. -/
def request_args : kcall → Option (Int × irq_handler_t × Nat × String × dev_id_t)
  | kcall.devm_request_irq irq hd fl nm id _ => some (irq, hd, fl, nm, id)
  | _ => none

/-- The registration expected for button `i`: the interrupt number derived
from the `i`-th line, the handler of this driver, both edges, and record `i`
as context. -/
def expected_request (env : kernel_env) (i : Nat) :
    Int × irq_handler_t × Nat × String × dev_id_t :=
  (to_uint (env.gpiod_to_irq (env.gpiod_get_index "key" i GPIOD_IN)),
    irq_handler_t.agn_key_interrupt,
    IRQF_TRIGGER_FALLING ||| IRQF_TRIGGER_RISING, env.dev_name, dev_id_t.key i)

/-- The result of attaching to a device that holds nothing yet. -/
def attach (env : kernel_env) (d0 : Int) : Int × probe_state :=
  agn_key_probe env (kernel_state.fresh d0)

/-! ## Handler lemmas -/

theorem lnot_of_bit (L : Int) (h : L = 0 ∨ L = 1) : lnot L = 1 - L := by
  rcases h with h | h <;> subst h <;> decide

theorem fire_eq (irq level : Int) (s : handler_state) :
    fire irq level s =
      { s with events := s.events ++
          [input_call.input_report_key s.key.input s.key.keycode (lnot level),
           input_call.input_sync s.key.input] } := rfl

theorem fire_all_spec (irq : Int) (levels : List Int) :
    ∀ s : handler_state,
      (fire_all irq levels s).key = s.key ∧
      (fire_all irq levels s).events = s.events ++
        (levels.map (fun L =>
          [input_call.input_report_key s.key.input s.key.keycode (lnot L),
           input_call.input_sync s.key.input])).flatten := by
  induction levels with
  | nil => intro s; simp [fire_all]
  | cons L rest ih =>
    intro s
    obtain ⟨h1, h2⟩ := ih (fire irq L s)
    simp only [fire_all]
    refine ⟨by rw [h1, fire_eq], ?_⟩
    rw [h2, fire_eq]
    simp

/-! ## Handler properties -/

/-- C1: polarity law.  For every record and every sampled level `L` in
`{0, 1}` the key event reported by `agn_key_interrupt` carries the key code of
the record and the value `NOT L`: level 0 gives 1 (pressed), level 1 gives 0. -/
theorem polarity_law (gpiod_get_value : Int → Int) (irq : Int) (key : agn_key)
    (L : Int) (hL : L = 0 ∨ L = 1) (hread : gpiod_get_value key.gpiod = L) :
    (agn_key_interrupt gpiod_get_value irq ⟨key, []⟩).2.events.head? =
        some (input_call.input_report_key key.input key.keycode (1 - L)) ∧
    (L = 0 → 1 - L = 1) ∧ (L = 1 → 1 - L = 0) := by
  refine ⟨?_, ?_, ?_⟩
  · simp [agn_key_interrupt, hread, lnot_of_bit L hL]
  · intro h; subst h; rfl
  · intro h; subst h; rfl

theorem polarity_law_witness :
    ((0 : Int) = 0 ∨ (0 : Int) = 1) ∧ (fun _ : Int => (0 : Int)) 7 = 0 ∧
    ((agn_key_interrupt (fun _ => 0) 40 ⟨⟨7, 40, KEY_1, 9⟩, []⟩).2.events.head? =
        some (input_call.input_report_key 9 KEY_1 (1 - 0)) ∧
      ((0 : Int) = 0 → (1 : Int) - 0 = 1) ∧ ((0 : Int) = 1 → (1 : Int) - 0 = 0)) :=
  ⟨Or.inl rfl, rfl,
   polarity_law (fun _ => 0) 40 ⟨7, 40, KEY_1, 9⟩ 0 (Or.inl rfl) rfl⟩

/-- C2: every invocation of `agn_key_interrupt` adds to the calls made so far
exactly one `input_report_key` carrying the key code of its record on the input
device of that record, immediately followed by one `input_sync` on the same
device, and nothing else; it leaves the record as it was and returns
`IRQ_HANDLED`.  For record 0 of a board that attached, whose key code is
`KEY_1`, a line reading 0 reports `(KEY_1, 1)` then synchronizes, and a line
reading 1 reports `(KEY_1, 0)` then synchronizes. -/
theorem interrupt_emits_one_event (gpiod_get_value : Int → Int) (irq : Int)
    (s : handler_state) :
    agn_key_interrupt gpiod_get_value irq s =
      (irqreturn_t.IRQ_HANDLED,
       { key := s.key
         events := s.events ++
          [input_call.input_report_key s.key.input s.key.keycode
              (lnot (gpiod_get_value s.key.gpiod)),
           input_call.input_sync s.key.input] }) ∧
    agn_key_interrupt (fun _ => 0) 40 ⟨(attach env_ok 0).2.mem.key 0, []⟩ =
      (irqreturn_t.IRQ_HANDLED,
       ⟨(attach env_ok 0).2.mem.key 0,
        [input_call.input_report_key 200 KEY_1 1, input_call.input_sync 200]⟩) ∧
    agn_key_interrupt (fun _ => 1) 40 ⟨(attach env_ok 0).2.mem.key 0, []⟩ =
      (irqreturn_t.IRQ_HANDLED,
       ⟨(attach env_ok 0).2.mem.key 0,
        [input_call.input_report_key 200 KEY_1 0, input_call.input_sync 200]⟩) :=
  ⟨rfl, by decide, by decide⟩

/-- C10: no debouncing.  The handler invoked once per sample of a finite
sequence of levels in `{0, 1}` emits, in sampling order, one
`(key code, NOT level)` report and one synchronize per sample, and leaves the
record unchanged; two successive samples of the same level give two reports
with the same value. -/
theorem no_debouncing (irq : Int) (key : agn_key) (levels : List Int)
    (hbits : ∀ L ∈ levels, L = 0 ∨ L = 1) :
    (fire_all irq levels ⟨key, []⟩).events = (levels.map (reported key)).flatten ∧
    (fire_all irq levels ⟨key, []⟩).key = key ∧
    (fire_all irq levels ⟨key, []⟩).events.length = 2 * levels.length ∧
    ∀ L, L = 0 ∨ L = 1 →
      (fire_all irq [L, L] ⟨key, []⟩).events = reported key L ++ reported key L := by
  have hmap : levels.map (fun L =>
        [input_call.input_report_key key.input key.keycode (lnot L),
         input_call.input_sync key.input]) = levels.map (reported key) := by
    apply List.map_congr_left
    intro L hL
    simp [reported, lnot_of_bit L (hbits L hL)]
  obtain ⟨h1, h2⟩ := fire_all_spec irq levels ⟨key, []⟩
  have hlen : ∀ l : List Int, ((l.map (reported key)).flatten).length = 2 * l.length := by
    intro l
    induction l with
    | nil => simp
    | cons a t ih => simp [reported, ih]; omega
  refine ⟨?_, h1, ?_, ?_⟩
  · rw [h2, hmap]; simp
  · rw [h2, hmap]; simpa using hlen levels
  · intro L hL
    simp [fire_all, fire_eq, reported, lnot_of_bit L hL]

theorem no_debouncing_witness :
    (∀ L ∈ [(0 : Int), 0, 1], L = 0 ∨ L = 1) ∧
    (fire_all 40 [0, 0, 1] ⟨⟨100, 40, KEY_1, 200⟩, []⟩).events =
      [input_call.input_report_key 200 KEY_1 1, input_call.input_sync 200,
       input_call.input_report_key 200 KEY_1 1, input_call.input_sync 200,
       input_call.input_report_key 200 KEY_1 0, input_call.input_sync 200] :=
  ⟨by decide, (no_debouncing 40 ⟨100, 40, KEY_1, 200⟩ [0, 0, 1] (by decide)).1⟩

/-! ## Attach lemmas -/

theorem flags_not_shared :
    (IRQF_TRIGGER_FALLING ||| IRQF_TRIGGER_RISING) &&& IRQF_SHARED = 0 := by decide

theorem IS_ERR_zero : IS_ERR 0 = false := by decide

theorem IS_ERR_ne_zero (p : Int) (h : IS_ERR p = true) : p ≠ 0 := by
  intro hp; subst hp; simp [IS_ERR_zero] at h

theorem ENOMEM_ne_zero : ¬ENOMEM = 0 := by decide

theorem EBUSY_ne_zero : ¬EBUSY = 0 := by decide

theorem EINVAL_ne_zero : ¬EINVAL = 0 := by decide

theorem ENOTCONN_ne_zero : ¬ENOTCONN = 0 := by decide

theorem range_one : List.range 1 = [0] := by decide

theorem range_two : List.range 2 = [0, 1] := by decide

/-- An `int` that is not negative is its own unsigned conversion. -/
theorem to_uint_of_nonneg (n : Int) (h0 : 0 ≤ n) (h1 : n < 2147483648) : to_uint n = n := by
  unfold to_uint; omega

/-- A negative `int` converts to a number above `INT_MAX`. -/
theorem to_uint_of_neg (n : Int) (h0 : -2147483648 ≤ n) (h1 : n < 0) :
    IRQ_NOTCONNECTED ≤ to_uint n := by
  unfold to_uint IRQ_NOTCONNECTED; omega

/-- An `int` whose unsigned conversion is below `IRQ_NOTCONNECTED` is not
negative. -/
theorem nonneg_of_to_uint (n : Int) (h0 : -2147483648 ≤ n) (h1 : n < 2147483648)
    (h : to_uint n < IRQ_NOTCONNECTED) : 0 ≤ n ∧ to_uint n = n := by
  unfold to_uint IRQ_NOTCONNECTED at *; omega

/-- An accepted request is for a number below `IRQ_NOTCONNECTED` that no live
registration uses. -/
theorem request_accepted (env : kernel_env) (irqs : List irq_action) (irq : Int)
    (id : dev_id_t)
    (h : request_threaded_irq env irqs irq irq_handler_t.agn_key_interrupt
      (IRQF_TRIGGER_FALLING ||| IRQF_TRIGGER_RISING) id = 0) :
    irq < IRQ_NOTCONNECTED ∧ ∀ a ∈ irqs, irq ≠ a.irq := by
  unfold request_threaded_irq at h
  simp only [flags_not_shared, decide_True, Bool.and_true] at h
  split_ifs at h with h1 h2 h3 h4
  · simp [ENOTCONN_ne_zero] at h
  · simp [EINVAL_ne_zero] at h
  · simp at h3
  · simp [EBUSY_ne_zero] at h
  · refine ⟨by omega, ?_⟩
    intro a ha hirq
    apply h4
    simp only [List.any_eq_true, decide_eq_true_eq]
    exact ⟨a, ha, hirq⟩

/-- A request for a number at or above `IRQ_NOTCONNECTED` is refused. -/
theorem request_refused (env : kernel_env) (irqs : List irq_action) (irq : Int)
    (hd : irq_handler_t) (fl : Nat) (id : dev_id_t) (h : IRQ_NOTCONNECTED ≤ irq) :
    request_threaded_irq env irqs irq hd fl id = -ENOTCONN ∨
    request_threaded_irq env irqs irq hd fl id = -EINVAL := by
  unfold request_threaded_irq
  split_ifs with h1 h2
  all_goals first
    | exact Or.inl rfl
    | exact Or.inr rfl
    | omega

/-- The answer of `gpiod_to_irq` for button `i` is an `int`. -/
theorem env_irq_int (env : kernel_env) (i : Nat) :
    -2147483648 ≤ env_irq env i ∧ env_irq env i < 2147483648 :=
  env.gpiod_to_irq_int _

/-- A failed lookup makes the registration fail: the negative `int` arrives as
a number that is no interrupt. -/
theorem lookup_failed_refused (env : kernel_env) (i : Nat) (h : env_irq env i < 0) :
    ¬request_answer env i = 0 ∧
    (request_answer env i = -ENOTCONN ∨ request_answer env i = -EINVAL) := by
  have hu := to_uint_of_neg _ (env_irq_int env i).1 h
  have hr := request_refused env (regs_before env i) (env_uirq env i)
    irq_handler_t.agn_key_interrupt (IRQF_TRIGGER_FALLING ||| IRQF_TRIGGER_RISING)
    (dev_id_t.key i) hu
  refine ⟨?_, hr⟩
  rcases hr with hr | hr
  · unfold request_answer; rw [hr]; decide
  · unfold request_answer; rw [hr]; decide

/-- An accepted registration comes from a lookup that did not fail, and its
number is the one the lookup returned. -/
theorem request_ok_lookup_ok (env : kernel_env) (i : Nat) (h : request_answer env i = 0) :
    0 ≤ env_irq env i ∧ env_uirq env i = env_irq env i :=
  nonneg_of_to_uint _ (env_irq_int env i).1 (env_irq_int env i).2
    (request_accepted env _ _ _ h).1

/-- For a valid and free number the registration gets the answer of the
environment. -/
theorem request_answer_free (env : kernel_env) (i : Nat) (h0 : 0 ≤ env_irq env i)
    (hfree : ∀ j, j < i → env_uirq env j ≠ env_uirq env i) :
    request_answer env i = env.request_irq (env_uirq env i) (dev_id_t.key i) := by
  have hu : env_uirq env i = env_irq env i :=
    to_uint_of_nonneg _ h0 (env_irq_int env i).2
  have hlt := (env_irq_int env i).2
  unfold request_answer request_threaded_irq
  have hany : (regs_before env i).any (fun a => decide (env_uirq env i = a.irq)) = false := by
    rw [Bool.eq_false_iff]
    intro hc
    simp only [regs_before, List.any_eq_true, List.mem_reverse, List.mem_map, List.mem_range,
      decide_eq_true_eq] at hc
    obtain ⟨a, ⟨j, hj, rfl⟩, ha⟩ := hc
    exact hfree j hj ha.symm
  rw [hany]
  simp only [IRQ_NOTCONNECTED, hu]
  rw [if_neg (by omega), if_neg (by omega), if_neg (by decide)]
  simp

/-- The places at which an attach can stop, in program order: each failure
comes with the success of everything before it. -/
theorem path_cases (env : kernel_env) :
    env.kzalloc = 0 ∨
    (env.kzalloc ≠ 0 ∧ (IS_ERR (env_line env 0) = true ∨
    (IS_ERR (env_line env 0) = false ∧ (¬0 ≤ env_irq env 0 ∨
    (0 ≤ env_irq env 0 ∧ (request_answer env 0 ≠ 0 ∨
    (request_answer env 0 = 0 ∧ (env.input_allocate_device 0 = 0 ∨
    (env.input_allocate_device 0 ≠ 0 ∧ (env.input_register_device (env_input env 0) ≠ 0 ∨
    (env.input_register_device (env_input env 0) = 0 ∧ (IS_ERR (env_line env 1) = true ∨
    (IS_ERR (env_line env 1) = false ∧ (¬0 ≤ env_irq env 1 ∨
    (0 ≤ env_irq env 1 ∧ (request_answer env 1 ≠ 0 ∨
    (request_answer env 1 = 0 ∧ (env.input_allocate_device 1 = 0 ∨
    (env.input_allocate_device 1 ≠ 0 ∧ (env.input_register_device (env_input env 1) ≠ 0 ∨
    env.input_register_device (env_input env 1) = 0)))))))))))))))))))) := by
  cases h : IS_ERR (env_line env 0) <;> cases h2 : IS_ERR (env_line env 1) <;>
    simp only [true_and, false_and, and_true, and_false, or_true, or_false, true_or,
      false_or, Bool.false_eq_true, Bool.true_eq_false, not_true_eq_false,
      not_false_eq_true, ne_eq] <;> tauto

/-- The record of calls of an attach, by the place at which it stops: what
succeeded before, what failed, the returned code, the published driver data
and the calls made. -/
theorem attach_trace (env : kernel_env) (d0 : Int) :
    ((env.kzalloc = 0) ∧
      (attach env d0).1 = -ENOMEM ∧ (attach env d0).2.k.drvdata = d0 ∧
      (attach env d0).2.k.calls =
        [c_kzalloc env]) ∨
    ((env.kzalloc ≠ 0 ∧
        IS_ERR (env_line env 0) = true) ∧
      (attach env d0).1 = env_line env 0 ∧ (attach env d0).2.k.drvdata = d0 ∧
      (attach env d0).2.k.calls =
        [c_kzalloc env, c_line env 0, kcall.dev_err "Failed to get gpio %d\n" (some 0)]) ∨
    ((env.kzalloc ≠ 0 ∧
        IS_ERR (env_line env 0) = false ∧
        env_irq env 0 < 0) ∧
      (attach env d0).1 = request_answer env 0 ∧ (attach env d0).2.k.drvdata = d0 ∧
      (attach env d0).2.k.calls =
        [c_kzalloc env, c_line env 0, c_to_irq env 0,
         c_request env 0 (request_answer env 0),
         kcall.dev_err "Failed to request IRQ %d\n" (some 0)]) ∨
    ((env.kzalloc ≠ 0 ∧
        IS_ERR (env_line env 0) = false ∧
        0 ≤ env_irq env 0 ∧
        request_answer env 0 ≠ 0) ∧
      (attach env d0).1 = request_answer env 0 ∧ (attach env d0).2.k.drvdata = d0 ∧
      (attach env d0).2.k.calls =
        [c_kzalloc env, c_line env 0, c_to_irq env 0,
         c_request env 0 (request_answer env 0),
         kcall.dev_err "Failed to request IRQ %d\n" (some 0)]) ∨
    ((env.kzalloc ≠ 0 ∧
        IS_ERR (env_line env 0) = false ∧
        0 ≤ env_irq env 0 ∧
        request_answer env 0 = 0 ∧
        env.input_allocate_device 0 = 0) ∧
      (attach env d0).1 = -ENOMEM ∧ (attach env d0).2.k.drvdata = d0 ∧
      (attach env d0).2.k.calls =
        [c_kzalloc env, c_line env 0, c_to_irq env 0, c_request env 0 0, c_alloc env 0]) ∨
    ((env.kzalloc ≠ 0 ∧
        IS_ERR (env_line env 0) = false ∧
        0 ≤ env_irq env 0 ∧
        request_answer env 0 = 0 ∧
        env.input_allocate_device 0 ≠ 0 ∧
        env.input_register_device (env_input env 0) ≠ 0) ∧
      (attach env d0).1 = env.input_register_device (env_input env 0) ∧ (attach env d0).2.k.drvdata = d0 ∧
      (attach env d0).2.k.calls =
        c_kzalloc env :: button_calls env 0 ++
          [kcall.dev_err "Failed to register input device\n" none]) ∨
    ((env.kzalloc ≠ 0 ∧
        IS_ERR (env_line env 0) = false ∧
        0 ≤ env_irq env 0 ∧
        request_answer env 0 = 0 ∧
        env.input_allocate_device 0 ≠ 0 ∧
        env.input_register_device (env_input env 0) = 0 ∧
        IS_ERR (env_line env 1) = true) ∧
      (attach env d0).1 = env_line env 1 ∧ (attach env d0).2.k.drvdata = d0 ∧
      (attach env d0).2.k.calls =
        c_kzalloc env :: button_calls env 0 ++
          [c_line env 1, kcall.dev_err "Failed to get gpio %d\n" (some 1)]) ∨
    ((env.kzalloc ≠ 0 ∧
        IS_ERR (env_line env 0) = false ∧
        0 ≤ env_irq env 0 ∧
        request_answer env 0 = 0 ∧
        env.input_allocate_device 0 ≠ 0 ∧
        env.input_register_device (env_input env 0) = 0 ∧
        IS_ERR (env_line env 1) = false ∧
        env_irq env 1 < 0) ∧
      (attach env d0).1 = request_answer env 1 ∧ (attach env d0).2.k.drvdata = d0 ∧
      (attach env d0).2.k.calls =
        c_kzalloc env :: button_calls env 0 ++
          [c_line env 1, c_to_irq env 1, c_request env 1 (request_answer env 1),
           kcall.dev_err "Failed to request IRQ %d\n" (some 1)]) ∨
    ((env.kzalloc ≠ 0 ∧
        IS_ERR (env_line env 0) = false ∧
        0 ≤ env_irq env 0 ∧
        request_answer env 0 = 0 ∧
        env.input_allocate_device 0 ≠ 0 ∧
        env.input_register_device (env_input env 0) = 0 ∧
        IS_ERR (env_line env 1) = false ∧
        0 ≤ env_irq env 1 ∧
        request_answer env 1 ≠ 0) ∧
      (attach env d0).1 = request_answer env 1 ∧ (attach env d0).2.k.drvdata = d0 ∧
      (attach env d0).2.k.calls =
        c_kzalloc env :: button_calls env 0 ++
          [c_line env 1, c_to_irq env 1, c_request env 1 (request_answer env 1),
           kcall.dev_err "Failed to request IRQ %d\n" (some 1)]) ∨
    ((env.kzalloc ≠ 0 ∧
        IS_ERR (env_line env 0) = false ∧
        0 ≤ env_irq env 0 ∧
        request_answer env 0 = 0 ∧
        env.input_allocate_device 0 ≠ 0 ∧
        env.input_register_device (env_input env 0) = 0 ∧
        IS_ERR (env_line env 1) = false ∧
        0 ≤ env_irq env 1 ∧
        request_answer env 1 = 0 ∧
        env.input_allocate_device 1 = 0) ∧
      (attach env d0).1 = -ENOMEM ∧ (attach env d0).2.k.drvdata = d0 ∧
      (attach env d0).2.k.calls =
        c_kzalloc env :: button_calls env 0 ++
          [c_line env 1, c_to_irq env 1, c_request env 1 0, c_alloc env 1]) ∨
    ((env.kzalloc ≠ 0 ∧
        IS_ERR (env_line env 0) = false ∧
        0 ≤ env_irq env 0 ∧
        request_answer env 0 = 0 ∧
        env.input_allocate_device 0 ≠ 0 ∧
        env.input_register_device (env_input env 0) = 0 ∧
        IS_ERR (env_line env 1) = false ∧
        0 ≤ env_irq env 1 ∧
        request_answer env 1 = 0 ∧
        env.input_allocate_device 1 ≠ 0 ∧
        env.input_register_device (env_input env 1) ≠ 0) ∧
      (attach env d0).1 = env.input_register_device (env_input env 1) ∧ (attach env d0).2.k.drvdata = d0 ∧
      (attach env d0).2.k.calls =
        c_kzalloc env :: button_calls env 0 ++ button_calls env 1 ++
          [kcall.dev_err "Failed to register input device\n" none]) ∨
    ((env.kzalloc ≠ 0 ∧
        IS_ERR (env_line env 0) = false ∧
        0 ≤ env_irq env 0 ∧
        request_answer env 0 = 0 ∧
        env.input_allocate_device 0 ≠ 0 ∧
        env.input_register_device (env_input env 0) = 0 ∧
        IS_ERR (env_line env 1) = false ∧
        0 ≤ env_irq env 1 ∧
        request_answer env 1 = 0 ∧
        env.input_allocate_device 1 ≠ 0 ∧
        env.input_register_device (env_input env 1) = 0) ∧
      (attach env d0).1 = 0 ∧ (attach env d0).2.k.drvdata = env.kzalloc ∧
      (attach env d0).2.k.calls =
        c_kzalloc env :: button_calls env 0 ++ button_calls env 1 ++
          [kcall.platform_set_drvdata env.kzalloc]) := by
  rcases path_cases env with h | ⟨hz, h | ⟨hg0, h | ⟨hn0, h | ⟨hr0, h | ⟨ha0, h | ⟨hi0, h | ⟨hg1, h | ⟨hn1, h | ⟨hr1, h | ⟨ha1, h | h⟩⟩⟩⟩⟩⟩⟩⟩⟩⟩
  · refine Or.inl ⟨h, ?_⟩
    simp [attach, agn_key_probe, probe_alloc, probe_loop, probe_body, probe_line, probe_irq,
      probe_input, devm_kzalloc, devm_gpiod_get_index, gpiod_to_irq, devm_request_irq,
      devm_input_allocate_device, input_register_device, platform_set_drvdata, dev_err,
      kernel_state.call, kernel_state.fresh, probe_state.set_key, agn_key_drvdata.key,
      PTR_ERR, KEY_NUM, set_bit, keycodes, ENOMEM_ne_zero,
      c_kzalloc, c_line, c_to_irq, c_request, c_alloc, c_register, button_calls, env_line,
      env_irq, env_uirq, env_input, *]
  · refine Or.inr (Or.inl ⟨⟨hz, h⟩, ?_⟩)
    simp only [request_answer, regs_before, env_action, env_uirq, env_irq, env_line,
      env_input, keycodes, List.getD_cons_zero, List.getD_cons_succ, List.range_zero,
      range_one, List.map_nil, List.map_cons, List.reverse_nil, List.reverse_cons,
      List.nil_append, ne_eq] at *
    simp [attach, agn_key_probe, probe_alloc, probe_loop, probe_body, probe_line, probe_irq,
      probe_input, devm_kzalloc, devm_gpiod_get_index, gpiod_to_irq, devm_request_irq,
      devm_input_allocate_device, input_register_device, platform_set_drvdata, dev_err,
      kernel_state.call, kernel_state.fresh, probe_state.set_key, agn_key_drvdata.key,
      PTR_ERR, KEY_NUM, set_bit, keycodes, ENOMEM_ne_zero,
      c_kzalloc, c_line, c_to_irq, c_request, c_alloc, c_register, button_calls, env_line,
      env_irq, env_uirq, env_input, *]
  · refine Or.inr (Or.inr (Or.inl ⟨⟨hz, hg0, not_le.mp h⟩, ?_⟩))
    have hq := (lookup_failed_refused env 0 (not_le.mp h)).1
    simp only [request_answer, regs_before, env_action, env_uirq, env_irq, env_line,
      env_input, keycodes, List.getD_cons_zero, List.getD_cons_succ, List.range_zero,
      range_one, List.map_nil, List.map_cons, List.reverse_nil, List.reverse_cons,
      List.nil_append, ne_eq] at *
    simp [attach, agn_key_probe, probe_alloc, probe_loop, probe_body, probe_line, probe_irq,
      probe_input, devm_kzalloc, devm_gpiod_get_index, gpiod_to_irq, devm_request_irq,
      devm_input_allocate_device, input_register_device, platform_set_drvdata, dev_err,
      kernel_state.call, kernel_state.fresh, probe_state.set_key, agn_key_drvdata.key,
      PTR_ERR, KEY_NUM, set_bit, keycodes, ENOMEM_ne_zero,
      c_kzalloc, c_line, c_to_irq, c_request, c_alloc, c_register, button_calls, env_line,
      env_irq, env_uirq, env_input, *]
  · refine Or.inr (Or.inr (Or.inr (Or.inl ⟨⟨hz, hg0, hn0, h⟩, ?_⟩)))
    simp only [request_answer, regs_before, env_action, env_uirq, env_irq, env_line,
      env_input, keycodes, List.getD_cons_zero, List.getD_cons_succ, List.range_zero,
      range_one, List.map_nil, List.map_cons, List.reverse_nil, List.reverse_cons,
      List.nil_append, ne_eq] at *
    simp [attach, agn_key_probe, probe_alloc, probe_loop, probe_body, probe_line, probe_irq,
      probe_input, devm_kzalloc, devm_gpiod_get_index, gpiod_to_irq, devm_request_irq,
      devm_input_allocate_device, input_register_device, platform_set_drvdata, dev_err,
      kernel_state.call, kernel_state.fresh, probe_state.set_key, agn_key_drvdata.key,
      PTR_ERR, KEY_NUM, set_bit, keycodes, ENOMEM_ne_zero,
      c_kzalloc, c_line, c_to_irq, c_request, c_alloc, c_register, button_calls, env_line,
      env_irq, env_uirq, env_input, *]
  · refine Or.inr (Or.inr (Or.inr (Or.inr (Or.inl ⟨⟨hz, hg0, hn0, hr0, h⟩, ?_⟩))))
    simp only [request_answer, regs_before, env_action, env_uirq, env_irq, env_line,
      env_input, keycodes, List.getD_cons_zero, List.getD_cons_succ, List.range_zero,
      range_one, List.map_nil, List.map_cons, List.reverse_nil, List.reverse_cons,
      List.nil_append, ne_eq] at *
    simp [attach, agn_key_probe, probe_alloc, probe_loop, probe_body, probe_line, probe_irq,
      probe_input, devm_kzalloc, devm_gpiod_get_index, gpiod_to_irq, devm_request_irq,
      devm_input_allocate_device, input_register_device, platform_set_drvdata, dev_err,
      kernel_state.call, kernel_state.fresh, probe_state.set_key, agn_key_drvdata.key,
      PTR_ERR, KEY_NUM, set_bit, keycodes, ENOMEM_ne_zero,
      c_kzalloc, c_line, c_to_irq, c_request, c_alloc, c_register, button_calls, env_line,
      env_irq, env_uirq, env_input, *]
  · refine Or.inr (Or.inr (Or.inr (Or.inr (Or.inr (Or.inl ⟨⟨hz, hg0, hn0, hr0, ha0, h⟩, ?_⟩)))))
    simp only [request_answer, regs_before, env_action, env_uirq, env_irq, env_line,
      env_input, keycodes, List.getD_cons_zero, List.getD_cons_succ, List.range_zero,
      range_one, List.map_nil, List.map_cons, List.reverse_nil, List.reverse_cons,
      List.nil_append, ne_eq] at *
    simp [attach, agn_key_probe, probe_alloc, probe_loop, probe_body, probe_line, probe_irq,
      probe_input, devm_kzalloc, devm_gpiod_get_index, gpiod_to_irq, devm_request_irq,
      devm_input_allocate_device, input_register_device, platform_set_drvdata, dev_err,
      kernel_state.call, kernel_state.fresh, probe_state.set_key, agn_key_drvdata.key,
      PTR_ERR, KEY_NUM, set_bit, keycodes, ENOMEM_ne_zero,
      c_kzalloc, c_line, c_to_irq, c_request, c_alloc, c_register, button_calls, env_line,
      env_irq, env_uirq, env_input, *]
  · refine Or.inr (Or.inr (Or.inr (Or.inr (Or.inr (Or.inr (Or.inl ⟨⟨hz, hg0, hn0, hr0, ha0, hi0, h⟩, ?_⟩))))))
    simp only [request_answer, regs_before, env_action, env_uirq, env_irq, env_line,
      env_input, keycodes, List.getD_cons_zero, List.getD_cons_succ, List.range_zero,
      range_one, List.map_nil, List.map_cons, List.reverse_nil, List.reverse_cons,
      List.nil_append, ne_eq] at *
    simp [attach, agn_key_probe, probe_alloc, probe_loop, probe_body, probe_line, probe_irq,
      probe_input, devm_kzalloc, devm_gpiod_get_index, gpiod_to_irq, devm_request_irq,
      devm_input_allocate_device, input_register_device, platform_set_drvdata, dev_err,
      kernel_state.call, kernel_state.fresh, probe_state.set_key, agn_key_drvdata.key,
      PTR_ERR, KEY_NUM, set_bit, keycodes, ENOMEM_ne_zero,
      c_kzalloc, c_line, c_to_irq, c_request, c_alloc, c_register, button_calls, env_line,
      env_irq, env_uirq, env_input, *]
  · refine Or.inr (Or.inr (Or.inr (Or.inr (Or.inr (Or.inr (Or.inr (Or.inl ⟨⟨hz, hg0, hn0, hr0, ha0, hi0, hg1, not_le.mp h⟩, ?_⟩)))))))
    have hq := (lookup_failed_refused env 1 (not_le.mp h)).1
    simp only [request_answer, regs_before, env_action, env_uirq, env_irq, env_line,
      env_input, keycodes, List.getD_cons_zero, List.getD_cons_succ, List.range_zero,
      range_one, List.map_nil, List.map_cons, List.reverse_nil, List.reverse_cons,
      List.nil_append, ne_eq] at *
    simp [attach, agn_key_probe, probe_alloc, probe_loop, probe_body, probe_line, probe_irq,
      probe_input, devm_kzalloc, devm_gpiod_get_index, gpiod_to_irq, devm_request_irq,
      devm_input_allocate_device, input_register_device, platform_set_drvdata, dev_err,
      kernel_state.call, kernel_state.fresh, probe_state.set_key, agn_key_drvdata.key,
      PTR_ERR, KEY_NUM, set_bit, keycodes, ENOMEM_ne_zero,
      c_kzalloc, c_line, c_to_irq, c_request, c_alloc, c_register, button_calls, env_line,
      env_irq, env_uirq, env_input, *]
  · refine Or.inr (Or.inr (Or.inr (Or.inr (Or.inr (Or.inr (Or.inr (Or.inr (Or.inl ⟨⟨hz, hg0, hn0, hr0, ha0, hi0, hg1, hn1, h⟩, ?_⟩))))))))
    simp only [request_answer, regs_before, env_action, env_uirq, env_irq, env_line,
      env_input, keycodes, List.getD_cons_zero, List.getD_cons_succ, List.range_zero,
      range_one, List.map_nil, List.map_cons, List.reverse_nil, List.reverse_cons,
      List.nil_append, ne_eq] at *
    simp [attach, agn_key_probe, probe_alloc, probe_loop, probe_body, probe_line, probe_irq,
      probe_input, devm_kzalloc, devm_gpiod_get_index, gpiod_to_irq, devm_request_irq,
      devm_input_allocate_device, input_register_device, platform_set_drvdata, dev_err,
      kernel_state.call, kernel_state.fresh, probe_state.set_key, agn_key_drvdata.key,
      PTR_ERR, KEY_NUM, set_bit, keycodes, ENOMEM_ne_zero,
      c_kzalloc, c_line, c_to_irq, c_request, c_alloc, c_register, button_calls, env_line,
      env_irq, env_uirq, env_input, *]
  · refine Or.inr (Or.inr (Or.inr (Or.inr (Or.inr (Or.inr (Or.inr (Or.inr (Or.inr (Or.inl ⟨⟨hz, hg0, hn0, hr0, ha0, hi0, hg1, hn1, hr1, h⟩, ?_⟩)))))))))
    simp only [request_answer, regs_before, env_action, env_uirq, env_irq, env_line,
      env_input, keycodes, List.getD_cons_zero, List.getD_cons_succ, List.range_zero,
      range_one, List.map_nil, List.map_cons, List.reverse_nil, List.reverse_cons,
      List.nil_append, ne_eq] at *
    simp [attach, agn_key_probe, probe_alloc, probe_loop, probe_body, probe_line, probe_irq,
      probe_input, devm_kzalloc, devm_gpiod_get_index, gpiod_to_irq, devm_request_irq,
      devm_input_allocate_device, input_register_device, platform_set_drvdata, dev_err,
      kernel_state.call, kernel_state.fresh, probe_state.set_key, agn_key_drvdata.key,
      PTR_ERR, KEY_NUM, set_bit, keycodes, ENOMEM_ne_zero,
      c_kzalloc, c_line, c_to_irq, c_request, c_alloc, c_register, button_calls, env_line,
      env_irq, env_uirq, env_input, *]
  · refine Or.inr (Or.inr (Or.inr (Or.inr (Or.inr (Or.inr (Or.inr (Or.inr (Or.inr (Or.inr (Or.inl ⟨⟨hz, hg0, hn0, hr0, ha0, hi0, hg1, hn1, hr1, ha1, h⟩, ?_⟩))))))))))
    simp only [request_answer, regs_before, env_action, env_uirq, env_irq, env_line,
      env_input, keycodes, List.getD_cons_zero, List.getD_cons_succ, List.range_zero,
      range_one, List.map_nil, List.map_cons, List.reverse_nil, List.reverse_cons,
      List.nil_append, ne_eq] at *
    simp [attach, agn_key_probe, probe_alloc, probe_loop, probe_body, probe_line, probe_irq,
      probe_input, devm_kzalloc, devm_gpiod_get_index, gpiod_to_irq, devm_request_irq,
      devm_input_allocate_device, input_register_device, platform_set_drvdata, dev_err,
      kernel_state.call, kernel_state.fresh, probe_state.set_key, agn_key_drvdata.key,
      PTR_ERR, KEY_NUM, set_bit, keycodes, ENOMEM_ne_zero,
      c_kzalloc, c_line, c_to_irq, c_request, c_alloc, c_register, button_calls, env_line,
      env_irq, env_uirq, env_input, *]
  · refine Or.inr (Or.inr (Or.inr (Or.inr (Or.inr (Or.inr (Or.inr (Or.inr (Or.inr (Or.inr (Or.inr (⟨⟨hz, hg0, hn0, hr0, ha0, hi0, hg1, hn1, hr1, ha1, h⟩, ?_⟩)))))))))))
    simp only [request_answer, regs_before, env_action, env_uirq, env_irq, env_line,
      env_input, keycodes, List.getD_cons_zero, List.getD_cons_succ, List.range_zero,
      range_one, List.map_nil, List.map_cons, List.reverse_nil, List.reverse_cons,
      List.nil_append, ne_eq] at *
    simp [attach, agn_key_probe, probe_alloc, probe_loop, probe_body, probe_line, probe_irq,
      probe_input, devm_kzalloc, devm_gpiod_get_index, gpiod_to_irq, devm_request_irq,
      devm_input_allocate_device, input_register_device, platform_set_drvdata, dev_err,
      kernel_state.call, kernel_state.fresh, probe_state.set_key, agn_key_drvdata.key,
      PTR_ERR, KEY_NUM, set_bit, keycodes, ENOMEM_ne_zero,
      c_kzalloc, c_line, c_to_irq, c_request, c_alloc, c_register, button_calls, env_line,
      env_irq, env_uirq, env_input, *]

theorem button_ok_iff (env : kernel_env) (i : Nat) :
    button_ok env i = true ↔
      IS_ERR (env_line env i) = false ∧ 0 ≤ env_irq env i ∧ request_answer env i = 0 ∧
      env.input_allocate_device i ≠ 0 ∧ env.input_register_device (env_input env i) = 0 := by
  simp [button_ok, and_assoc]

theorem started_zero (env : kernel_env) : started env 0 ↔ env.kzalloc ≠ 0 := by
  simp [started]

theorem started_one (env : kernel_env) :
    started env 1 ↔ env.kzalloc ≠ 0 ∧ button_ok env 0 = true := by
  simp [started]

/-- C3: after a successful attach the registry has `KEY_NUM` records and, for
every index `i` below `KEY_NUM`, record `i` carries the key code `keycodes[i]`
(`KEY_1` for 0, `KEY_2` for 1), the `i`-th line declared for the role "key",
the interrupt number derived from that line, and the live registrations on
that interrupt number are exactly one, the one whose context is record `i`. -/
theorem probe_success_registry (env : kernel_env) (d0 : Int)
    (hok : (attach env d0).1 = 0) :
    (attach env d0).2.mem.keys.length = KEY_NUM ∧
    keycodes = [KEY_1, KEY_2] ∧
    ∀ i, i < KEY_NUM →
      ((attach env d0).2.mem.key i).keycode = ((keycodes.getD i 0 : Nat) : Int) ∧
      ((attach env d0).2.mem.key i).gpiod = env.gpiod_get_index "key" i GPIOD_IN ∧
      ((attach env d0).2.mem.key i).irq =
        env.gpiod_to_irq ((attach env d0).2.mem.key i).gpiod ∧
      (attach env d0).2.k.irqs.filter
          (fun a => decide (a.irq = ((attach env d0).2.mem.key i).irq)) =
        [⟨((attach env d0).2.mem.key i).irq, irq_handler_t.agn_key_interrupt,
          IRQF_TRIGGER_FALLING ||| IRQF_TRIGGER_RISING, env.dev_name, dev_id_t.key i⟩] := by
  refine ⟨?_, rfl, ?_⟩
  · revert hok
    rcases path_cases env with h | ⟨hz, h | ⟨hg0, h | ⟨hn0, h | ⟨hr0, h | ⟨ha0, h | ⟨hi0, h | ⟨hg1, h | ⟨hn1, h | ⟨hr1, h | ⟨ha1, h | h⟩⟩⟩⟩⟩⟩⟩⟩⟩⟩
    all_goals try have hq := (lookup_failed_refused env _ (not_le.mp h)).1
    all_goals try simp only [request_answer, regs_before, env_action, env_uirq, env_irq,
      env_line, env_input, keycodes, List.getD_cons_zero, List.getD_cons_succ,
      List.range_zero, range_one, List.map_nil, List.map_cons, List.reverse_nil,
      List.reverse_cons, List.nil_append, ne_eq] at *
    all_goals simp [attach, agn_key_probe, probe_alloc, probe_loop, probe_body, probe_line,
      probe_irq, probe_input, devm_kzalloc, devm_gpiod_get_index, gpiod_to_irq,
      devm_request_irq, devm_input_allocate_device, input_register_device,
      platform_set_drvdata, dev_err, kernel_state.call, kernel_state.fresh,
      probe_state.set_key, agn_key_drvdata.key, PTR_ERR, KEY_NUM, set_bit, keycodes,
      ENOMEM_ne_zero, *]
  · intro i hi
    revert hok
    have hi2 : i = 0 ∨ i = 1 := by simp only [KEY_NUM] at hi; omega
    rcases path_cases env with h | ⟨hz, h | ⟨hg0, h | ⟨hn0, h | ⟨hr0, h | ⟨ha0, h | ⟨hi0, h | ⟨hg1, h | ⟨hn1, h | ⟨hr1, h | ⟨ha1, h | h⟩⟩⟩⟩⟩⟩⟩⟩⟩⟩
    all_goals try have hq := (lookup_failed_refused env _ (not_le.mp h)).1
    all_goals try simp only [request_answer, regs_before, env_action, env_uirq, env_irq,
      env_line, env_input, keycodes, List.getD_cons_zero, List.getD_cons_succ,
      List.range_zero, range_one, List.map_nil, List.map_cons, List.reverse_nil,
      List.reverse_cons, List.nil_append, ne_eq] at *
    all_goals rcases hi2 with rfl | rfl
    all_goals simp [attach, agn_key_probe, probe_alloc, probe_loop, probe_body, probe_line,
      probe_irq, probe_input, devm_kzalloc, devm_gpiod_get_index, gpiod_to_irq,
      devm_request_irq, devm_input_allocate_device, input_register_device,
      platform_set_drvdata, dev_err, kernel_state.call, kernel_state.fresh,
      probe_state.set_key, agn_key_drvdata.key, PTR_ERR, KEY_NUM, set_bit, keycodes,
      ENOMEM_ne_zero, *]
    all_goals try exact IS_ERR_ne_zero _ h
    all_goals try (intro h0; rw [h0, IS_ERR_zero] at h; exact absurd h (by decide))
    all_goals
      obtain ⟨lt0, -⟩ := request_accepted _ _ _ _ hr0
      obtain ⟨lt1, ne1⟩ := request_accepted _ _ _ _ hr1
      obtain ⟨-, e0⟩ := nonneg_of_to_uint _ (env.gpiod_to_irq_int _).1
        (env.gpiod_to_irq_int _).2 lt0
      obtain ⟨-, e1⟩ := nonneg_of_to_uint _ (env.gpiod_to_irq_int _).1
        (env.gpiod_to_irq_int _).2 lt1
      have ne := ne1 _ (List.mem_singleton_self _)
      simp only [e0, e1] at ne ⊢
      simp [ne, Ne.symm ne]

theorem probe_success_registry_witness :
    (attach env_ok 0).1 = 0 ∧ (attach env_ok 0).2.mem.keys.length = KEY_NUM :=
  ⟨by decide, (probe_success_registry env_ok 0 (by decide)).1⟩

/-- C4: atomic failure.  When the attach routine reports a failure, the attach
call of the host returns that failure and, once it has returned, no interrupt
registration is live, no GPIO line is claimed, no input device is registered
or allocated, and nothing is left on the managed resource list, whatever the
step and the index at which the routine failed. -/
theorem attach_failure_releases (env : kernel_env) (d0 : Int)
    (hfail : (platform_attach env (kernel_state.fresh d0)).1 ≠ 0) :
    (platform_attach env (kernel_state.fresh d0)).1 = (attach env d0).1 ∧
    (platform_attach env (kernel_state.fresh d0)).2.irqs = [] ∧
    (platform_attach env (kernel_state.fresh d0)).2.lines = [] ∧
    (platform_attach env (kernel_state.fresh d0)).2.inputs_registered = [] ∧
    (platform_attach env (kernel_state.fresh d0)).2.inputs_allocated = [] ∧
    (platform_attach env (kernel_state.fresh d0)).2.kmem = [] ∧
    (platform_attach env (kernel_state.fresh d0)).2.devres = [] := by
  revert hfail
  rcases path_cases env with h | ⟨hz, h | ⟨hg0, h | ⟨hn0, h | ⟨hr0, h | ⟨ha0, h | ⟨hi0, h | ⟨hg1, h | ⟨hn1, h | ⟨hr1, h | ⟨ha1, h | h⟩⟩⟩⟩⟩⟩⟩⟩⟩⟩
  all_goals try have hq := (lookup_failed_refused env _ (not_le.mp h)).1
  all_goals try simp only [request_answer, regs_before, env_action, env_uirq, env_irq,
    env_line, env_input, keycodes, List.getD_cons_zero, List.getD_cons_succ,
    List.range_zero, range_one, List.map_nil, List.map_cons, List.reverse_nil,
    List.reverse_cons, List.nil_append, ne_eq] at *
  all_goals try have hne := IS_ERR_ne_zero _ h
  all_goals simp [platform_attach, devres_release_all, devres_release,
    attach, agn_key_probe, probe_alloc, probe_loop, probe_body, probe_line,
    probe_irq, probe_input, devm_kzalloc, devm_gpiod_get_index, gpiod_to_irq,
    devm_request_irq, devm_input_allocate_device, input_register_device,
    platform_set_drvdata, dev_err, kernel_state.call, kernel_state.fresh,
    probe_state.set_key, agn_key_drvdata.key, PTR_ERR, KEY_NUM, set_bit, keycodes,
    ENOMEM_ne_zero, *]

theorem attach_failure_releases_witness :
    (platform_attach env_one_line (kernel_state.fresh 0)).1 = -2 ∧
    (attach env_one_line 0).2.k.irqs ≠ [] ∧
    (attach env_one_line 0).2.k.lines = [100] ∧
    (platform_attach env_one_line (kernel_state.fresh 0)).2.irqs = [] ∧
    (platform_attach env_one_line (kernel_state.fresh 0)).2.lines = [] ∧
    (platform_attach env_one_line (kernel_state.fresh 0)).2.inputs_registered = [] :=
  ⟨by decide, by decide, by decide,
   (attach_failure_releases env_one_line 0 (by decide)).2.1,
   (attach_failure_releases env_one_line 0 (by decide)).2.2.1,
   (attach_failure_releases env_one_line 0 (by decide)).2.2.2.1⟩

/-- C5: the state in which the attach routine has just registered the
interrupt of button 0 (lines 50-74 done, lines 77-99 not yet).  The
registration with record 0 as context is live while the input device pointer
of record 0 is still `NULL`; the handler run on that record does not return
silently: it calls `input_report_key` and `input_sync` on the `NULL` device. -/
theorem irq_live_before_sink_ready :
    ∃ s0 s1 s2,
      probe_alloc env_ok (kernel_state.fresh 0) = Except.ok s0 ∧
      probe_line env_ok 0 s0 = Except.ok s1 ∧
      probe_irq env_ok 0 s1 = Except.ok s2 ∧
      s2.k.irqs = [⟨40, irq_handler_t.agn_key_interrupt, 3, "keys", dev_id_t.key 0⟩] ∧
      (s2.mem.key 0).input = 0 ∧
      (agn_key_interrupt (fun _ => 0) 40 ⟨s2.mem.key 0, []⟩).2.events =
        [input_call.input_report_key 0 0 1, input_call.input_sync 0] :=
  ⟨_, _, _, rfl, rfl, rfl, by decide, by decide, by decide⟩

/-- C6: when the interrupt lookup for a button the loop reaches fails
(`gpiod_to_irq` returns a negative errno for the line acquired at index `i`),
the attach is aborted: the routine returns a non-zero code, publishes nothing,
and the last two steps it made are that lookup and the interrupt registration
on the number the lookup returned, which the interrupt core refuses with
`-EINVAL` or `-ENOTCONN`.  The failure it reports is of the kind of a failed
lookup, `ResourceUnavailable`; its code is the one of the refused registration. -/
theorem irq_lookup_failure_aborts (env : kernel_env) (d0 : Int) (i : Nat)
    (hi : i < KEY_NUM) (hs : started env i) (hl : IS_ERR (env_line env i) = false)
    (hneg : env_irq env i < 0) :
    (attach env d0).1 ≠ 0 ∧
    ((attach env d0).1 = -EINVAL ∨ (attach env d0).1 = -ENOTCONN) ∧
    (attach env d0).2.k.drvdata = d0 ∧
    (steps (attach env d0).2.k.calls).getLast? = some (c_request env i (attach env d0).1) ∧
    (steps (attach env d0).2.k.calls).dropLast.getLast? = some (c_to_irq env i) ∧
    failure_kind (attach env d0).2.k.calls = step_kind (c_to_irq env i) ∧
    step_kind (c_to_irq env i) = some error_kind.ResourceUnavailable := by
  have hi2 : i = 0 ∨ i = 1 := by simp only [KEY_NUM] at hi; omega
  obtain ⟨hq, hv⟩ := lookup_failed_refused env i hneg
  rcases hi2 with rfl | rfl
  all_goals first
    | rw [started_zero] at hs
    | rw [started_one, button_ok_iff] at hs
  all_goals
    rcases attach_trace env d0 with ⟨hp, hr, hd, hc⟩ | ⟨hp, hr, hd, hc⟩ | ⟨hp, hr, hd, hc⟩ |
      ⟨hp, hr, hd, hc⟩ | ⟨hp, hr, hd, hc⟩ | ⟨hp, hr, hd, hc⟩ | ⟨hp, hr, hd, hc⟩ |
      ⟨hp, hr, hd, hc⟩ | ⟨hp, hr, hd, hc⟩ | ⟨hp, hr, hd, hc⟩ | ⟨hp, hr, hd, hc⟩ |
      ⟨hp, hr, hd, hc⟩
  all_goals first
    | (exfalso; simp_all; done)
    | (exfalso; simp_all; omega)
    | skip
  all_goals rw [hr, hd, hc]
  all_goals refine ⟨hq, hv.symm, rfl, ?_, ?_, ?_, rfl⟩
  all_goals simp [steps, failure_kind, is_step, step_kind, c_kzalloc, c_line, c_to_irq, c_request, c_alloc,
      c_register, button_calls]

theorem irq_lookup_failure_aborts_witness :
    (env_irq env_no_irq 0 < 0 ∧ (attach env_no_irq 0).1 ≠ 0 ∧
      (attach env_no_irq 0).2.k.drvdata = 0) ∧
    (env_irq env_no_second_irq 1 < 0 ∧ (attach env_no_second_irq 0).1 ≠ 0 ∧
      failure_kind (attach env_no_second_irq 0).2.k.calls =
        some error_kind.ResourceUnavailable) :=
  ⟨⟨by decide,
    (irq_lookup_failure_aborts env_no_irq 0 0 (by decide)
      ((started_zero _).2 (by decide)) (by decide) (by decide)).1,
    (irq_lookup_failure_aborts env_no_irq 0 0 (by decide)
      ((started_zero _).2 (by decide)) (by decide) (by decide)).2.2.1⟩,
   ⟨by decide,
    (irq_lookup_failure_aborts env_no_second_irq 0 1 (by decide)
      ((started_one _).2 ⟨by decide, by decide⟩) (by decide) (by decide)).1,
    (irq_lookup_failure_aborts env_no_second_irq 0 1 (by decide)
      ((started_one _).2 ⟨by decide, by decide⟩) (by decide) (by decide)).2.2.2.2.2.1⟩⟩

/-- C7: error codes are passed on unchanged.  If the registry allocation
returns `NULL` the attach routine returns `-ENOMEM`.  For every index `i` the
loop reaches (everything before it succeeded): if the line acquisition at `i`
returns the error pointer `p` the routine returns `p`; if the interrupt
registration at `i` is answered a non-zero code the routine returns that code,
in particular the code `e` the environment gives for a valid and free
interrupt number; if the input device allocation at `i` returns `NULL` the
routine returns `-ENOMEM`; if the input device registration at `i` is answered
a non-zero code the routine returns that code. -/
theorem error_propagation (env : kernel_env) (d0 : Int) :
    (env.kzalloc = 0 → (attach env d0).1 = -ENOMEM) ∧
    ∀ i, i < KEY_NUM → started env i →
      (IS_ERR (env_line env i) = true → (attach env d0).1 = env_line env i) ∧
      (IS_ERR (env_line env i) = false → request_answer env i ≠ 0 →
        (attach env d0).1 = request_answer env i) ∧
      (IS_ERR (env_line env i) = false → 0 ≤ env_irq env i →
        (∀ j, j < i → env_uirq env j ≠ env_uirq env i) →
        env.request_irq (env_uirq env i) (dev_id_t.key i) ≠ 0 →
        (attach env d0).1 = env.request_irq (env_uirq env i) (dev_id_t.key i)) ∧
      (IS_ERR (env_line env i) = false → request_answer env i = 0 →
        env.input_allocate_device i = 0 → (attach env d0).1 = -ENOMEM) ∧
      (IS_ERR (env_line env i) = false → request_answer env i = 0 →
        env.input_allocate_device i ≠ 0 →
        env.input_register_device (env_input env i) ≠ 0 →
        (attach env d0).1 = env.input_register_device (env_input env i)) := by
  refine ⟨?_, ?_⟩
  · intro hz
    rcases attach_trace env d0 with ⟨hp, hr, -, -⟩ | ⟨hp, hr, -, -⟩ | ⟨hp, hr, -, -⟩ |
      ⟨hp, hr, -, -⟩ | ⟨hp, hr, -, -⟩ | ⟨hp, hr, -, -⟩ | ⟨hp, hr, -, -⟩ | ⟨hp, hr, -, -⟩ |
      ⟨hp, hr, -, -⟩ | ⟨hp, hr, -, -⟩ | ⟨hp, hr, -, -⟩ | ⟨hp, hr, -, -⟩
    all_goals first
      | exact hr
      | exact absurd hz hp.1
  · intro i hi hs
    have hi2 : i = 0 ∨ i = 1 := by simp only [KEY_NUM] at hi; omega
    have hfree : 0 ≤ env_irq env i → (∀ j, j < i → env_uirq env j ≠ env_uirq env i) →
        env.request_irq (env_uirq env i) (dev_id_t.key i) = request_answer env i :=
      fun h0 hf => (request_answer_free env i h0 hf).symm
    have hneg : env_irq env i < 0 → ¬request_answer env i = 0 :=
      fun h => (lookup_failed_refused env i h).1
    refine ⟨?_, ?_, ?_, ?_, ?_⟩
    all_goals intros
    all_goals try rw [hfree (by assumption) (by assumption)] at *
    all_goals rcases hi2 with rfl | rfl
    all_goals first
      | rw [started_zero] at hs
      | rw [started_one, button_ok_iff] at hs
    all_goals
      rcases attach_trace env d0 with ⟨hp, hr, -, -⟩ | ⟨hp, hr, -, -⟩ | ⟨hp, hr, -, -⟩ |
        ⟨hp, hr, -, -⟩ | ⟨hp, hr, -, -⟩ | ⟨hp, hr, -, -⟩ | ⟨hp, hr, -, -⟩ | ⟨hp, hr, -, -⟩ |
        ⟨hp, hr, -, -⟩ | ⟨hp, hr, -, -⟩ | ⟨hp, hr, -, -⟩ | ⟨hp, hr, -, -⟩
    all_goals rw [hr]
    all_goals first
      | rfl
      | (exfalso; simp_all; done)
      | (exfalso; simp_all; omega)

theorem error_propagation_witness :
    (attach env_no_registry 0).1 = -ENOMEM ∧
    (attach env_one_line 0).1 = -2 ∧
    (attach env_irq_taken 0).1 = -16 ∧
    (attach env_no_memory 0).1 = -ENOMEM ∧
    (attach env_rejected 0).1 = -17 :=
  ⟨(error_propagation env_no_registry 0).1 (by decide),
   ((error_propagation env_one_line 0).2 1 (by decide)
      ((started_one _).2 ⟨by decide, by decide⟩)).1 (by decide),
   ((error_propagation env_irq_taken 0).2 1 (by decide)
      ((started_one _).2 ⟨by decide, by decide⟩)).2.2.1 (by decide) (by decide)
      (fun j hj => by interval_cases j; decide) (by decide),
   ((error_propagation env_no_memory 0).2 1 (by decide)
      ((started_one _).2 ⟨by decide, by decide⟩)).2.2.2.1 (by decide) (by decide)
      (by decide),
   ((error_propagation env_rejected 0).2 1 (by decide)
      ((started_one _).2 ⟨by decide, by decide⟩)).2.2.2.2 (by decide) (by decide)
      (by decide) (by decide)⟩

/-- C9: the interrupt registrations the attach routine asks for are, in order,
those expected for the buttons `0, 1, ..` and no other; for every index `i`
the loop reaches and whose line is acquired, the `i`-th registration is made
and is the expected one; a successful attach made all `KEY_NUM` of them.  The
expected registration for `i` is on the number derived from line `i` (the
lookup result, when the lookup did not fail), has the function
`agn_key_interrupt` as handler, has both edge bits in its flags, and has the
address of record `i`, not of the registry, as context. -/
theorem irq_registration_shape (env : kernel_env) (d0 : Int) :
    (attach env d0).2.k.calls.filterMap request_args <+:
      (List.range KEY_NUM).map (expected_request env) ∧
    (∀ i, i < KEY_NUM → started env i → IS_ERR (env_line env i) = false →
      ((attach env d0).2.k.calls.filterMap request_args).get? i =
        some (expected_request env i)) ∧
    ((attach env d0).1 = 0 →
      (attach env d0).2.k.calls.filterMap request_args =
        (List.range KEY_NUM).map (expected_request env)) ∧
    (∀ i, 0 ≤ env_irq env i → (expected_request env i).1 = env_irq env i) ∧
    (∀ i, (expected_request env i).2.1.fn = some agn_key_interrupt) ∧
    (∀ i, (expected_request env i).2.2.1 &&& IRQF_TRIGGER_RISING ≠ 0 ∧
      (expected_request env i).2.2.1 &&& IRQF_TRIGGER_FALLING ≠ 0) ∧
    (∀ i, (expected_request env i).2.2.2.2 = dev_id_t.key i) := by
  refine ⟨?_, ?_, ?_,
    fun i h0 => to_uint_of_nonneg _ h0 (env_irq_int env i).2, fun _ => rfl,
    fun _ => by simp only [expected_request]; decide, fun _ => rfl⟩
  · rcases attach_trace env d0 with ⟨hp, hr, hd, hc⟩ | ⟨hp, hr, hd, hc⟩ | ⟨hp, hr, hd, hc⟩ |
      ⟨hp, hr, hd, hc⟩ | ⟨hp, hr, hd, hc⟩ | ⟨hp, hr, hd, hc⟩ | ⟨hp, hr, hd, hc⟩ |
      ⟨hp, hr, hd, hc⟩ | ⟨hp, hr, hd, hc⟩ | ⟨hp, hr, hd, hc⟩ | ⟨hp, hr, hd, hc⟩ |
      ⟨hp, hr, hd, hc⟩
    all_goals rw [hc]
    all_goals simp [KEY_NUM, request_args, expected_request, range_two, c_kzalloc, c_line,
      c_to_irq, c_request, c_alloc, c_register, button_calls, env_line, env_irq, env_uirq]
  · intro i hi hs hl
    have hi2 : i = 0 ∨ i = 1 := by simp only [KEY_NUM] at hi; omega
    rcases hi2 with rfl | rfl
    all_goals first
      | rw [started_zero] at hs
      | rw [started_one, button_ok_iff] at hs
    all_goals
      rcases attach_trace env d0 with ⟨hp, hr, hd, hc⟩ | ⟨hp, hr, hd, hc⟩ | ⟨hp, hr, hd, hc⟩ |
        ⟨hp, hr, hd, hc⟩ | ⟨hp, hr, hd, hc⟩ | ⟨hp, hr, hd, hc⟩ | ⟨hp, hr, hd, hc⟩ |
        ⟨hp, hr, hd, hc⟩ | ⟨hp, hr, hd, hc⟩ | ⟨hp, hr, hd, hc⟩ | ⟨hp, hr, hd, hc⟩ |
        ⟨hp, hr, hd, hc⟩
    all_goals first
      | (exfalso; simp_all; done)
      | (exfalso; omega)
      | skip
    all_goals rw [hc]
    all_goals simp [KEY_NUM, request_args, expected_request, range_two, c_kzalloc, c_line,
      c_to_irq, c_request, c_alloc, c_register, button_calls, env_line, env_irq, env_uirq]
  · intro hok
    rcases attach_trace env d0 with ⟨hp, hr, hd, hc⟩ | ⟨hp, hr, hd, hc⟩ | ⟨hp, hr, hd, hc⟩ |
      ⟨hp, hr, hd, hc⟩ | ⟨hp, hr, hd, hc⟩ | ⟨hp, hr, hd, hc⟩ | ⟨hp, hr, hd, hc⟩ |
      ⟨hp, hr, hd, hc⟩ | ⟨hp, hr, hd, hc⟩ | ⟨hp, hr, hd, hc⟩ | ⟨hp, hr, hd, hc⟩ |
      ⟨hp, hr, hd, hc⟩
    all_goals first
      | (exfalso; rw [hr] at hok; revert hok; simp [ENOMEM_ne_zero, hp]; done)
      | (exfalso; rw [hr] at hok; exact IS_ERR_ne_zero _ (by simp [hp]) hok)
      | (exfalso; rw [hr] at hok; exact (lookup_failed_refused env _ (by simp [hp])).1 hok)
      | skip
    all_goals rw [hc]
    all_goals simp [KEY_NUM, request_args, expected_request, range_two, c_kzalloc, c_line,
      c_to_irq, c_request, c_alloc, c_register, button_calls, env_line, env_irq, env_uirq]

theorem irq_registration_shape_witness :
    ((attach env_ok 0).2.k.calls.filterMap request_args).get? 1 =
      some (41, irq_handler_t.agn_key_interrupt, 3, "keys", dev_id_t.key 1) ∧
    ((attach env_irq_taken 0).2.k.calls.filterMap request_args).get? 1 =
      some (41, irq_handler_t.agn_key_interrupt, 3, "keys", dev_id_t.key 1) :=
  ⟨(irq_registration_shape env_ok 0).2.1 1 (by decide)
      ((started_one _).2 ⟨by decide, by decide⟩) (by decide),
   (irq_registration_shape env_irq_taken 0).2.1 1 (by decide)
      ((started_one _).2 ⟨by decide, by decide⟩) (by decide)⟩

end AgnGpioKey
